import Mathlib

/-!
Shallow embedding of the BlenderBIM add-on excerpt:
  src/blenderbim/blenderbim/bim/export_ifc.py
  src/blenderbim/blenderbim/bim/module/qto/operator.py
  src/blenderbim/blenderbim/core/type.py

Python functions are translated into executable Lean definitions.  Side
effects (calls into the third-party blenderbim / ifcopenshell APIs and
Blender operators) are modelled as events collected in a trace list, in the
order the Python code performs them.  External library functions that only
produce values (ifcopenshell.util.placement.get_local_placement,
ifcopenshell.util.geolocation.global2local, the qto helper module,
ifcopenshell.util.element.get_container / get_aggregate, ...) are passed in
as parameters of the embedding, since their code is not part of this
excerpt.  Machine floats are modelled as rationals.
-/

namespace BBim

/-- A 4x4 matrix of rationals, the embedding of a numpy 4x4 float array
(obj.matrix_world and the matrices of ifcopenshell.util.placement). -/
abbrev Mat4 := Fin 4 → Fin 4 → ℚ

/-- Single in-place entry update of a numpy matrix, the embedding of an
assignment such as ifc_matrix[0][3] = v. -/
def updateEntry (m : Mat4) (r c : Fin 4) (v : ℚ) : Mat4 :=
  fun i j => if i = r ∧ j = c then v else m i j

/-- The three statements
      ifc_matrix[0][3] *= self.unit_scale
      ifc_matrix[1][3] *= self.unit_scale
      ifc_matrix[2][3] *= self.unit_scale
of IfcExporter.sync_object_placement (export_ifc.py lines 125-127),
performed sequentially as in the source. -/
def scaleTranslation (m : Mat4) (s : ℚ) : Mat4 :=
  let m0 := updateEntry m 0 3 (m 0 3 * s)
  let m1 := updateEntry m0 1 3 (m0 1 3 * s)
  updateEntry m1 2 3 (m1 2 3 * s)

/-- numpy.allclose(a, b, rtol, atol): every entry satisfies
|a - b| <= atol + rtol * |b|.  In export_ifc.py line 139 it is called with
atol=0.0001 and rtol left at the numpy default 1e-5. -/
def npAllclose (a b : Mat4) (rtol atol : ℚ) : Bool :=
  decide (∀ i j, |a i j - b i j| ≤ atol + rtol * |b i j|)

/-- bpy.context.scene.BIMGeoreferenceProperties as read by
sync_object_placement.  The numeric fields are stored as strings in Blender
and converted with float(); the embedding holds the converted numbers. -/
structure GeorefProps where
  has_blender_offset : Bool
  blender_eastings : ℚ
  blender_northings : ℚ
  blender_orthogonal_height : ℚ
  blender_x_axis_abscissa : ℚ
  blender_x_axis_ordinate : ℚ

/-- Outcome of sync_object_placement when the element has an
ObjectPlacement attribute: the matrix the tolerance comparison used and
whether blenderbim.core.geometry.edit_object_placement was called. -/
structure PlacementResult where
  ifc_matrix : Mat4
  edit_called : Bool
deriving DecidableEq

/-- IfcExporter.sync_object_placement (export_ifc.py lines 119-140).
Parameters stand for the data the Python reads:
  g2l               ifcopenshell.util.geolocation.global2local,
  props             scene BIMGeoreferenceProperties,
  unit_scale        self.unit_scale,
  hasObjectPlacement  hasattr(element, "ObjectPlacement"),
  placementMatrix   ifcopenshell.util.placement.get_local_placement(...),
  blender_offset_type  obj.BIMObjectProperties.blender_offset_type,
  matrix_world      np.array(obj.matrix_world).
Returns none for the early return (no ObjectPlacement attribute),
otherwise the comparison matrix and whether the update API was called. -/
def placementCompareMatrix (g2l : Mat4 → ℚ → ℚ → ℚ → ℚ → ℚ → Mat4)
    (props : GeorefProps) (unit_scale : ℚ) (placementMatrix : Mat4)
    (blender_offset_type : String) : Mat4 :=
  let m1 := scaleTranslation placementMatrix unit_scale
  if props.has_blender_offset && (blender_offset_type == "OBJECT_PLACEMENT") then
    g2l m1 (props.blender_eastings * unit_scale)
      (props.blender_northings * unit_scale)
      (props.blender_orthogonal_height * unit_scale)
      props.blender_x_axis_abscissa props.blender_x_axis_ordinate
  else m1

def sync_object_placement (g2l : Mat4 → ℚ → ℚ → ℚ → ℚ → ℚ → Mat4)
    (props : GeorefProps) (unit_scale : ℚ) (hasObjectPlacement : Bool)
    (placementMatrix : Mat4) (blender_offset_type : String)
    (matrix_world : Mat4) : Option PlacementResult :=
  if hasObjectPlacement then
    let m2 := placementCompareMatrix g2l props unit_scale placementMatrix blender_offset_type
    some ⟨m2, !npAllclose m2 matrix_world (1/100000) (1/10000)⟩
  else none

/-- Identity stand-in for global2local when instantiating the model at
concrete inputs where the offset branch is not taken. -/
def g2lId : Mat4 → ℚ → ℚ → ℚ → ℚ → ℚ → Mat4 := fun m _ _ _ _ _ => m

/-- Scene georeference properties with no Blender offset. -/
def noOffsetProps : GeorefProps := ⟨false, 0, 0, 0, 0, 0⟩

/-- Blender world matrix for the C1 counterexample: identity except entry
(0,0) = 10. -/
def cexBlender : Mat4 := fun i j =>
  if i = 0 ∧ j = 0 then 10 else if i = j then 1 else 0

/-- IFC placement matrix for the C1 counterexample: identity except entry
(0,0) = 10.00012, which differs from cexBlender by 0.00012 > 0.0001, yet
numpy.allclose(·, ·, atol=0.0001) accepts it because of the default
relative tolerance 1e-5 · |10|. -/
def cexRaw : Mat4 := fun i j =>
  if i = 0 ∧ j = 0 then 250003/25000 else if i = j then 1 else 0

lemma cex_compare_matrix :
    placementCompareMatrix g2lId noOffsetProps 1 cexRaw "" = cexRaw := by
  funext i j
  fin_cases i <;> fin_cases j <;>
    simp [placementCompareMatrix, noOffsetProps, scaleTranslation, updateEntry]

lemma cex_allclose :
    npAllclose cexRaw cexBlender (1/100000) (1/10000) = true := by
  rw [npAllclose, decide_eq_true_eq]
  intro i j
  fin_cases i <;> fin_cases j <;>
    simp [cexRaw, cexBlender, abs_le] <;> norm_num

lemma cex_sync_eq :
    sync_object_placement g2lId noOffsetProps 1 true cexRaw "" cexBlender
      = some ⟨cexRaw, false⟩ := by
  have h0 : sync_object_placement g2lId noOffsetProps 1 true cexRaw "" cexBlender
      = some ⟨placementCompareMatrix g2lId noOffsetProps 1 cexRaw "",
              !npAllclose (placementCompareMatrix g2lId noOffsetProps 1 cexRaw "")
                cexBlender (1/100000) (1/10000)⟩ := rfl
  rw [h0, cex_compare_matrix, cex_allclose]
  rfl

/-- C1 counterexample: the IFC-derived matrix cexRaw and the Blender world
matrix cexBlender diverge by 0.00012 > 0.0001 in entry (0,0), so the claim
requires an update call, but sync_object_placement makes none: the numpy
allclose uses atol + rtol·|b| with default rtol = 1e-5, which accepts the
pair (0.00012 ≤ 0.0001 + 1e-5·10). -/
theorem C1_counterexample :
    sync_object_placement g2lId noOffsetProps 1 true cexRaw "" cexBlender
      = some ⟨cexRaw, false⟩ ∧
    ¬ (∀ i j, |cexRaw i j - cexBlender i j| ≤ 1/10000) := by
  refine ⟨cex_sync_eq, fun h => ?_⟩
  have h00 := h 0 0
  rw [abs_le] at h00
  norm_num [cexRaw, cexBlender] at h00

/-- C1 (amended): for a synced object whose element has an ObjectPlacement,
edit_object_placement is called if and only if some entry of the IFC-derived
comparison matrix differs from the Blender world matrix by more than
0.0001 + 1e-5·|blender entry| (numpy.allclose with atol=0.0001 and default
rtol=1e-5); when every entry is within that combined tolerance, no update
call is made. -/
theorem C1_edit_called_iff (g2l : Mat4 → ℚ → ℚ → ℚ → ℚ → ℚ → Mat4)
    (props : GeorefProps) (unit_scale : ℚ) (placementMatrix : Mat4)
    (blender_offset_type : String) (matrix_world : Mat4)
    (r : PlacementResult)
    (h : sync_object_placement g2l props unit_scale true placementMatrix
      blender_offset_type matrix_world = some r) :
    r.edit_called = true ↔
      ∃ i j, 1/10000 + 1/100000 * |matrix_world i j| <
        |r.ifc_matrix i j - matrix_world i j| := by
  have h0 : sync_object_placement g2l props unit_scale true placementMatrix
      blender_offset_type matrix_world =
      some ⟨placementCompareMatrix g2l props unit_scale placementMatrix
              blender_offset_type,
            !npAllclose (placementCompareMatrix g2l props unit_scale
              placementMatrix blender_offset_type) matrix_world
              (1/100000) (1/10000)⟩ := rfl
  have hr := Option.some.inj (h0.symm.trans h)
  subst hr
  simp only [npAllclose, Bool.not_eq_true', decide_eq_false_iff_not, not_forall,
    not_le]

theorem C1_witness :
    (⟨cexRaw, false⟩ : PlacementResult).edit_called = true ↔
      ∃ i j, 1/10000 + 1/100000 * |cexBlender i j| <
        |(⟨cexRaw, false⟩ : PlacementResult).ifc_matrix i j - cexBlender i j| :=
  C1_edit_called_iff g2lId noOffsetProps 1 cexRaw "" cexBlender
    ⟨cexRaw, false⟩ cex_sync_eq

/-- C5: before the tolerance comparison, exactly the translation entries
(rows 0-2 of column 3) of the matrix from get_local_placement are multiplied
by the unit scale (the rotation/scale entries and entry (3,3) are untouched
by the scaling step), and global2local is applied exactly when the scene has
a Blender offset and the blender_offset_type of the object is
"OBJECT_PLACEMENT". -/
theorem C5_unit_scale_and_offset (g2l : Mat4 → ℚ → ℚ → ℚ → ℚ → ℚ → Mat4)
    (props : GeorefProps) (unit_scale : ℚ) (placementMatrix : Mat4)
    (blender_offset_type : String) (matrix_world : Mat4) :
    (∀ i : Fin 4, i ≠ 3 →
      scaleTranslation placementMatrix unit_scale i 3 =
        placementMatrix i 3 * unit_scale) ∧
    (∀ i j : Fin 4, j ≠ 3 →
      scaleTranslation placementMatrix unit_scale i j = placementMatrix i j) ∧
    scaleTranslation placementMatrix unit_scale 3 3 = placementMatrix 3 3 ∧
    (props.has_blender_offset = true → blender_offset_type = "OBJECT_PLACEMENT" →
      (sync_object_placement g2l props unit_scale true placementMatrix
        blender_offset_type matrix_world).map PlacementResult.ifc_matrix =
      some (g2l (scaleTranslation placementMatrix unit_scale)
        (props.blender_eastings * unit_scale)
        (props.blender_northings * unit_scale)
        (props.blender_orthogonal_height * unit_scale)
        props.blender_x_axis_abscissa props.blender_x_axis_ordinate)) ∧
    (¬(props.has_blender_offset = true ∧
        blender_offset_type = "OBJECT_PLACEMENT") →
      (sync_object_placement g2l props unit_scale true placementMatrix
        blender_offset_type matrix_world).map PlacementResult.ifc_matrix =
      some (scaleTranslation placementMatrix unit_scale)) := by
  refine ⟨?_, ?_, ?_, ?_, ?_⟩
  · intro i hi
    fin_cases i <;> simp_all [scaleTranslation, updateEntry]
  · intro i j hj
    fin_cases i <;> fin_cases j <;>
      simp_all [scaleTranslation, updateEntry]
  · simp [scaleTranslation, updateEntry]
  · intro h1 h2
    simp [sync_object_placement, placementCompareMatrix, h1, h2]
  · intro h12
    rcases Decidable.not_and_iff_or_not.mp h12 with h1 | h2
    · simp only [Bool.not_eq_true] at h1
      simp [sync_object_placement, placementCompareMatrix, h1]
    · simp [sync_object_placement, placementCompareMatrix, h2]

/-- Concrete matrix used to witness C5. -/
def exPM : Mat4 := fun i j => ((i : ℕ) * 4 + (j : ℕ) : ℚ)

theorem C5_witness :
    scaleTranslation exPM 2 0 3 = exPM 0 3 * 2 :=
  (C5_unit_scale_and_offset g2lId noOffsetProps 2 exPM "" exPM).1 0 (by decide)

/-! ## Events: calls into the third-party APIs, in source order -/

/-- One call made by the embedded code into the blenderbim / ifcopenshell
APIs or the Blender operator system.  Traces are lists of these events in
the order the Python code performs the calls. -/
inductive Event where
  | edit_object_placement (objName : String)
  | assign_container (structureObj elementObj : String)
  | assign_object (relatingObj relatedObj : String)
  | sync_placement (id : ℕ)
  | sync_container (id : ℕ)
  | unlink_element (id : ℕ)
  | remove_product (id : ℕ)
  | update_style_colours (objName : String)
  | update_representation (objName : String)
  | add_qto (productId : ℕ) (psetName : String)
  | edit_qto (props : List (String × ℚ))
  | pset_load (id : ℕ)
  | run_assign_type
  | switch_representation (rep : ℕ) (should_reload enable_dynamic_voids is_global : Bool)
  | disable_editing
deriving DecidableEq

def isAssignContainer : Event → Bool
  | .assign_container _ _ => true
  | _ => false

def isAssignObject : Event → Bool
  | .assign_object _ _ => true
  | _ => false

/-! ## sync_object_container (export_ifc.py lines 142-177), claims C2, C7 -/

/-- An IFC entity as used by sync_object_container: its step id and the
IFC classes it answers is_a for (the class itself and its supertypes). -/
structure Element where
  id : ℕ
  classes : List String
deriving DecidableEq

/-- element.is_a("Ifc...") of ifcopenshell entities. -/
def Element.is_a (e : Element) (c : String) : Bool := e.classes.contains c

/-- A Blender collection: its name and the names of its child collections
(c.children.get looks a child up by name). -/
structure Collection where
  name : String
  children : List String
deriving DecidableEq

/-- The slice of a Blender object sync_object_container reads: its name,
its BIMObjectProperties.ifc_definition_id (0 when unset, Python-falsy), and
the names of the collections it is linked to (obj.users_collection). -/
structure BObj where
  name : String
  ifc_definition_id : ℕ
  users_collection : List String
deriving DecidableEq

/-- The surrounding state sync_object_container reads: the IFC file schema,
bpy.data.collections (in iteration order), bpy.data.objects.get,
self.file.by_id, and the two ifcopenshell.util.element queries. -/
structure ContainerEnv where
  schema : String
  collections : List Collection
  objectsByName : String → Option BObj
  byId : ℕ → Element
  get_container : Element → Option Element
  get_aggregate : Element → Option Element

/-- Lines 142-167 of export_ifc.py: resolve the parent object and parent
element for obj, or stop.  none covers every way the code exits before the
final comparison: the IfcProject/IfcContext early returns, the bare except
around the parent-collection lookup (also catching the AttributeError when
element_collection is None), a missing parent object, and a parent object
with no ifc_definition_id.  An uncaught IndexError from an empty
obj.users_collection (which would abort the whole export) is likewise
modelled as an exit without any API call. -/
def resolveParent (env : ContainerEnv) (obj : BObj) : Option (BObj × Element) :=
  let element := env.byId obj.ifc_definition_id
  if (env.schema == "IFC2X3" && element.is_a "IfcProject")
      || (env.schema != "IFC2X3" && element.is_a "IfcContext") then
    none
  else
    let element_collection := env.collections.find? (fun c => c.name == obj.name)
    let parentCollName :=
      if (element.is_a "IfcElement" && element_collection.isSome)
          || element.is_a "IfcSpatialStructureElement"
          || element.is_a "IfcGrid" then
        match element_collection with
        | none => none
        | some ec =>
          match env.collections.filter (fun c => c.children.contains ec.name) with
          | [] => none
          | c :: _ => some c.name
      else obj.users_collection.head?
    match parentCollName with
    | none => none
    | some pname =>
      match env.objectsByName pname with
      | none => none
      | some pobj =>
        if pobj.ifc_definition_id = 0 then none
        else some (pobj, env.byId pobj.ifc_definition_id)

/-- Lines 169-177 of export_ifc.py: the final comparison.  Either
blenderbim.core.spatial.assign_container, or
blenderbim.core.aggregate.assign_object, or nothing is called. -/
def finalComparison (env : ContainerEnv) (element parent : Element)
    (parentName objName : String) : List Event :=
  if parent.is_a "IfcSpatialStructureElement"
      && !element.is_a "IfcSpatialStructureElement" then
    if env.get_container element ≠ some parent then
      [.assign_container parentName objName]
    else []
  else
    if env.get_aggregate element ≠ some parent then
      [.assign_object parentName objName]
    else []

/-- IfcExporter.sync_object_container (export_ifc.py lines 142-177).
Returns the resolved parent element (some parent exactly when the final
comparison is reached) together with the list of assign API calls made. -/
def sync_object_container (env : ContainerEnv) (obj : BObj) :
    Option Element × List Event :=
  match resolveParent env obj with
  | none => (none, [])
  | some (pobj, parent) =>
    (some parent,
     finalComparison env (env.byId obj.ifc_definition_id) parent pobj.name obj.name)

lemma sync_object_container_of_resolve_none (env : ContainerEnv) (obj : BObj)
    (hr : resolveParent env obj = none) :
    sync_object_container env obj = (none, []) := by
  simp [sync_object_container, hr]

lemma sync_object_container_of_resolve_some (env : ContainerEnv) (obj : BObj)
    (pobj : BObj) (parent : Element)
    (hr : resolveParent env obj = some (pobj, parent)) :
    sync_object_container env obj =
      (some parent,
       finalComparison env (env.byId obj.ifc_definition_id) parent
         pobj.name obj.name) := by
  simp [sync_object_container, hr]

/-- C2: whenever sync_object_container reaches the final comparison (the
resolved parent is some parent), at most one of the two assign APIs is
called, never both; assign_container is called exactly in the spatial case
(parent an IfcSpatialStructureElement, element not) with a diverging
container, and assign_object exactly in the non-spatial case with a
diverging aggregate. -/
theorem C2_assign_dispatch (env : ContainerEnv) (obj : BObj) (parent : Element)
    (h : (sync_object_container env obj).1 = some parent) :
    ¬(((sync_object_container env obj).2.any isAssignContainer) = true ∧
      ((sync_object_container env obj).2.any isAssignObject) = true) ∧
    (((sync_object_container env obj).2.any isAssignContainer) = true ↔
      (parent.is_a "IfcSpatialStructureElement"
        && !(env.byId obj.ifc_definition_id).is_a "IfcSpatialStructureElement") = true ∧
      env.get_container (env.byId obj.ifc_definition_id) ≠ some parent) ∧
    (((sync_object_container env obj).2.any isAssignObject) = true ↔
      (parent.is_a "IfcSpatialStructureElement"
        && !(env.byId obj.ifc_definition_id).is_a "IfcSpatialStructureElement") = false ∧
      env.get_aggregate (env.byId obj.ifc_definition_id) ≠ some parent) := by
  rcases hr : resolveParent env obj with _ | ⟨pobj, p⟩
  · rw [sync_object_container_of_resolve_none env obj hr] at h
    simp at h
  · rw [sync_object_container_of_resolve_some env obj pobj p hr] at h ⊢
    obtain rfl : p = parent := Option.some.inj h
    simp only [finalComparison]
    split_ifs with h1 h2 h3 <;>
      simp [isAssignContainer, isAssignObject, h1, *]

/-! Concrete scenario used to witness C2 and C7: a wall object whose only
users_collection is the storey collection; the storey object carries the
spatial element. -/

def wallEl : Element := ⟨2, ["IfcElement", "IfcProduct", "IfcWall"]⟩

def storeyEl : Element := ⟨1, ["IfcSpatialStructureElement", "IfcBuildingStorey"]⟩

def storeyObj : BObj := ⟨"Storey", 1, []⟩

def wallObj : BObj := ⟨"Wall", 2, ["Storey"]⟩

def containerEnvBase : ContainerEnv where
  schema := "IFC4"
  collections := []
  objectsByName := fun n => if n = "Storey" then some storeyObj else none
  byId := fun n => if n = 1 then storeyEl else wallEl
  get_container := fun _ => none
  get_aggregate := fun _ => none

def containerEnvMatch : ContainerEnv :=
  { containerEnvBase with get_container := fun _ => some storeyEl }

theorem C2_witness :
    ¬(((sync_object_container containerEnvBase wallObj).2.any isAssignContainer) = true ∧
      ((sync_object_container containerEnvBase wallObj).2.any isAssignObject) = true) ∧
    (((sync_object_container containerEnvBase wallObj).2.any isAssignContainer) = true ↔
      (storeyEl.is_a "IfcSpatialStructureElement"
        && !(containerEnvBase.byId wallObj.ifc_definition_id).is_a "IfcSpatialStructureElement") = true ∧
      containerEnvBase.get_container (containerEnvBase.byId wallObj.ifc_definition_id) ≠ some storeyEl) ∧
    (((sync_object_container containerEnvBase wallObj).2.any isAssignObject) = true ↔
      (storeyEl.is_a "IfcSpatialStructureElement"
        && !(containerEnvBase.byId wallObj.ifc_definition_id).is_a "IfcSpatialStructureElement") = false ∧
      containerEnvBase.get_aggregate (containerEnvBase.byId wallObj.ifc_definition_id) ≠ some storeyEl) :=
  C2_assign_dispatch containerEnvBase wallObj storeyEl rfl

/-- C7: when the final comparison is reached and the resolved parent
already matches the current container (spatial case) or the current
aggregate (every other case), sync_object_container makes no assign call. -/
theorem C7_no_call_on_match (env : ContainerEnv) (obj : BObj) (parent : Element)
    (h : (sync_object_container env obj).1 = some parent) :
    ((parent.is_a "IfcSpatialStructureElement"
        && !(env.byId obj.ifc_definition_id).is_a "IfcSpatialStructureElement") = true →
      env.get_container (env.byId obj.ifc_definition_id) = some parent →
      (sync_object_container env obj).2 = []) ∧
    ((parent.is_a "IfcSpatialStructureElement"
        && !(env.byId obj.ifc_definition_id).is_a "IfcSpatialStructureElement") = false →
      env.get_aggregate (env.byId obj.ifc_definition_id) = some parent →
      (sync_object_container env obj).2 = []) := by
  rcases hr : resolveParent env obj with _ | ⟨pobj, p⟩
  · rw [sync_object_container_of_resolve_none env obj hr] at h
    simp at h
  · rw [sync_object_container_of_resolve_some env obj pobj p hr] at h ⊢
    obtain rfl : p = parent := Option.some.inj h
    constructor
    · intro h1 h2
      simp [finalComparison, h1, h2]
    · intro h1 h2
      simp [finalComparison, h1, h2]

theorem C7_witness :
    (sync_object_container containerEnvMatch wallObj).2 = [] :=
  (C7_no_call_on_match containerEnvMatch wallObj storeyEl rfl).1 rfl rfl

/-! ## sync_object_placements_and_deletions (export_ifc.py lines 86-104)
and should_delete (lines 179-186), claims C3, C9 -/

/-- The slice of a tracked IfcStore.id_map value the deletion pass reads:
whether it is a bpy.types.Material, and whether the Blender object still
exists (accessing obj.name raises when it does not). -/
structure TrackedObj where
  isMaterial : Bool
  alive : Bool
deriving DecidableEq

/-- IfcExporter.should_delete (export_ifc.py lines 179-186): True exactly
when accessing obj.name raises, i.e. the Blender object no longer exists. -/
def should_delete (o : TrackedObj) : Bool := !o.alive

/-- The first loop of sync_object_placements_and_deletions (lines 90-99),
over the id map in order.  Materials are skipped by the continue before
anything else, including the should_delete check.  For a live non-material
object the two sync calls run (their inner API calls are covered by the
placement and container models above; here each is one event tagged with
the map key); for a dead one they raise ReferenceError, which is caught.
should_delete sits outside the try and collects the ids to delete.
Returns (events of the pass, to_delete). -/
def syncPass : List (ℕ × TrackedObj) → List Event × List ℕ
  | [] => ([], [])
  | (i, o) :: rest =>
    let tail := syncPass rest
    if o.isMaterial then tail
    else
      ((if o.alive then [Event.sync_placement i, Event.sync_container i] else [])
         ++ tail.1,
       (if should_delete o then [i] else []) ++ tail.2)

/-- The second loop of sync_object_placements_and_deletions (lines
101-104): for each collected id, IfcStore.unlink_element(product) and then
ifcopenshell.api root.remove_product. -/
def deletePass : List ℕ → List Event
  | [] => []
  | i :: rest => Event.unlink_element i :: Event.remove_product i :: deletePass rest

/-- IfcExporter.sync_object_placements_and_deletions (lines 86-104): the
sync pass over the id map, then the deletions. -/
def sync_object_placements_and_deletions (idMap : List (ℕ × TrackedObj)) :
    List Event :=
  (syncPass idMap).1 ++ deletePass (syncPass idMap).2

def isSyncEvent : Event → Bool
  | .sync_placement _ => true
  | .sync_container _ => true
  | _ => false

def isRemovalEvent : Event → Bool
  | .unlink_element _ => true
  | .remove_product _ => true
  | _ => false

def removeId : Event → Option ℕ
  | .remove_product i => some i
  | _ => none

lemma syncPass_snd (idMap : List (ℕ × TrackedObj)) :
    (syncPass idMap).2 =
      (idMap.filter (fun p => !p.2.isMaterial && should_delete p.2)).map Prod.fst := by
  induction idMap with
  | nil => rfl
  | cons p rest ih =>
    obtain ⟨i, o⟩ := p
    by_cases hm : o.isMaterial <;> by_cases hd : should_delete o = true <;>
      simp [syncPass, List.filter_cons, hm, hd, ih]

lemma syncPass_fst_sync (idMap : List (ℕ × TrackedObj)) :
    ∀ e ∈ (syncPass idMap).1, isSyncEvent e = true := by
  induction idMap with
  | nil => intro e he; simp [syncPass] at he
  | cons p rest ih =>
    obtain ⟨i, o⟩ := p
    intro e he
    by_cases hm : o.isMaterial
    · exact ih e (by simpa [syncPass, hm] using he)
    · by_cases ha : o.alive
      · simp only [syncPass, hm, ha, if_false, if_true, Bool.false_eq_true,
          List.cons_append, List.nil_append, List.mem_cons] at he
        rcases he with he | he | he
        · subst he; rfl
        · subst he; rfl
        · exact ih e he
      · simp only [syncPass, hm, ha, if_false, Bool.false_eq_true,
          List.nil_append] at he
        exact ih e he

lemma deletePass_filterMap (ids : List ℕ) :
    (deletePass ids).filterMap removeId = ids := by
  induction ids with
  | nil => rfl
  | cons i rest ih => simp [deletePass, List.filterMap_cons, removeId, ih]

lemma deletePass_removal (ids : List ℕ) :
    ∀ e ∈ deletePass ids, isRemovalEvent e = true := by
  induction ids with
  | nil => intro e he; simp [deletePass] at he
  | cons i rest ih =>
    intro e he
    simp only [deletePass, List.mem_cons] at he
    rcases he with he | he | he
    · subst he; rfl
    · subst he; rfl
    · exact ih e he

lemma mem_deletePass_remove (ids : List ℕ) (i : ℕ) :
    Event.remove_product i ∈ deletePass ids ↔ i ∈ ids := by
  induction ids with
  | nil => simp [deletePass]
  | cons j rest ih => simp [deletePass, ih]

lemma sync_not_removal (e : Event) (h : isSyncEvent e = true) :
    isRemovalEvent e = false := by
  cases e <;> first | rfl | simp [isSyncEvent] at h

lemma removal_not_sync (e : Event) (h : isRemovalEvent e = true) :
    isSyncEvent e = false := by
  cases e <;> first | rfl | simp [isRemovalEvent] at h

lemma removal_removeId_none (e : Event) (h : isRemovalEvent e = false) :
    removeId e = none := by
  cases e <;> first | rfl | simp [isRemovalEvent] at h

lemma mem_syncPass_fst (idMap : List (ℕ × TrackedObj)) (e : Event)
    (he : e ∈ (syncPass idMap).1) :
    ∃ i o, (i, o) ∈ idMap ∧ o.isMaterial = false ∧ o.alive = true ∧
      (e = Event.sync_placement i ∨ e = Event.sync_container i) := by
  induction idMap with
  | nil => simp [syncPass] at he
  | cons p rest ih =>
    obtain ⟨i, o⟩ := p
    by_cases hm : o.isMaterial
    · obtain ⟨i2, o2, hmem, hrest⟩ := ih (by simpa [syncPass, hm] using he)
      exact ⟨i2, o2, List.mem_cons_of_mem _ hmem, hrest⟩
    · by_cases ha : o.alive
      · simp only [syncPass, hm, ha, if_false, if_true, Bool.false_eq_true,
          List.cons_append, List.nil_append, List.mem_cons] at he
        rcases he with he | he | he
        · exact ⟨i, o, List.mem_cons_self .., by simp [hm], by simp [ha], Or.inl he⟩
        · exact ⟨i, o, List.mem_cons_self .., by simp [hm], by simp [ha], Or.inr he⟩
        · obtain ⟨i2, o2, hmem, hrest⟩ := ih he
          exact ⟨i2, o2, List.mem_cons_of_mem _ hmem, hrest⟩
      · simp only [syncPass, hm, ha, if_false, Bool.false_eq_true,
          List.nil_append] at he
        obtain ⟨i2, o2, hmem, hrest⟩ := ih he
        exact ⟨i2, o2, List.mem_cons_of_mem _ hmem, hrest⟩

lemma key_unique (l : List (ℕ × TrackedObj)) (hnd : (l.map Prod.fst).Nodup)
    (i : ℕ) (o o2 : TrackedObj) (h1 : (i, o) ∈ l) (h2 : (i, o2) ∈ l) :
    o = o2 := by
  induction l with
  | nil => simp at h1
  | cons p rest ih =>
    simp only [List.map_cons, List.nodup_cons] at hnd
    simp only [List.mem_cons] at h1 h2
    rcases h1 with h1 | h1 <;> rcases h2 with h2 | h2
    · exact congrArg Prod.snd (h1.trans h2.symm)
    · exact absurd (by rw [← h1]; simpa using List.mem_map_of_mem Prod.fst h2) hnd.1
    · exact absurd (by rw [← h2]; simpa using List.mem_map_of_mem Prod.fst h1) hnd.1
    · exact ih hnd.2 h1 h2

/-- C3: sync_object_placements_and_deletions removes exactly the tracked
non-material entries whose Blender object no longer exists (should_delete,
i.e. obj.name raises); the removal part of the trace is, per product, an
unlink_element immediately followed by the remove_product; and every
removal happens after the whole sync pass over the id map has finished. -/
theorem C3_deletions (idMap : List (ℕ × TrackedObj)) :
    ((sync_object_placements_and_deletions idMap).filterMap removeId =
      (idMap.filter (fun p => !p.2.isMaterial && should_delete p.2)).map Prod.fst) ∧
    ((sync_object_placements_and_deletions idMap).filter isRemovalEvent =
      deletePass
        ((idMap.filter (fun p => !p.2.isMaterial && should_delete p.2)).map Prod.fst)) ∧
    (∃ A B, sync_object_placements_and_deletions idMap = A ++ B ∧
      (∀ e ∈ A, isRemovalEvent e = false) ∧ (∀ e ∈ B, isSyncEvent e = false)) := by
  have hfst : ∀ e ∈ (syncPass idMap).1, isRemovalEvent e = false :=
    fun e he => sync_not_removal e (syncPass_fst_sync idMap e he)
  have hsnd : ∀ e ∈ deletePass (syncPass idMap).2, isSyncEvent e = false :=
    fun e he => removal_not_sync e (deletePass_removal _ e he)
  refine ⟨?_, ?_, (syncPass idMap).1, deletePass (syncPass idMap).2, rfl, hfst, hsnd⟩
  · rw [sync_object_placements_and_deletions, List.filterMap_append,
      deletePass_filterMap, syncPass_snd]
    have h1 : ((syncPass idMap).1).filterMap removeId = [] := by
      rw [List.filterMap_eq_nil_iff]
      exact fun e he => removal_removeId_none e (hfst e he)
    rw [h1, List.nil_append]
  · rw [sync_object_placements_and_deletions, List.filter_append]
    have h1 : ((syncPass idMap).1).filter isRemovalEvent = [] := by
      rw [List.filter_eq_nil_iff]
      exact fun e he => by simp [hfst e he]
    have h2 : (deletePass (syncPass idMap).2).filter isRemovalEvent =
        deletePass (syncPass idMap).2 :=
      List.filter_eq_self.mpr (deletePass_removal _)
    rw [h1, h2, List.nil_append, syncPass_snd]

/-- C9: a tracked object that is a Blender material is skipped by the
continue before the sync calls and before the should_delete check, so its
id map entry triggers no sync event and its IFC product is never removed —
even if the material was deleted. -/
theorem C9_materials_skipped (idMap : List (ℕ × TrackedObj))
    (hnd : (idMap.map Prod.fst).Nodup) (i : ℕ) (o : TrackedObj)
    (hmem : (i, o) ∈ idMap) (hmat : o.isMaterial = true) :
    Event.sync_placement i ∉ sync_object_placements_and_deletions idMap ∧
    Event.sync_container i ∉ sync_object_placements_and_deletions idMap ∧
    Event.remove_product i ∉ sync_object_placements_and_deletions idMap := by
  have hnotRem : Event.remove_product i ∉ sync_object_placements_and_deletions idMap := by
    rw [sync_object_placements_and_deletions]
    intro hc
    rcases List.mem_append.mp hc with hc | hc
    · exact absurd (syncPass_fst_sync idMap _ hc) (by simp [isSyncEvent])
    · rw [mem_deletePass_remove, syncPass_snd] at hc
      obtain ⟨⟨i2, o2⟩, hin, hfst⟩ := List.mem_map.mp hc
      obtain ⟨hin2, hcond⟩ := List.mem_filter.mp hin
      have hi : i2 = i := hfst
      have ho : o2 = o :=
        key_unique idMap hnd i o2 o (by rw [← hi]; exact hin2) hmem
      rw [ho] at hcond
      simp [hmat] at hcond
  have hsync : ∀ e, (e = Event.sync_placement i ∨ e = Event.sync_container i) →
      e ∉ sync_object_placements_and_deletions idMap := by
    intro e hform
    rw [sync_object_placements_and_deletions]
    intro hc
    rcases List.mem_append.mp hc with hc | hc
    · obtain ⟨i2, o2, hin2, hm2, _, hform2⟩ := mem_syncPass_fst idMap e hc
      have hi : i2 = i := by
        rcases hform with h | h <;> rcases hform2 with h2 | h2 <;>
          first
            | exact (Event.sync_placement.inj (h2.symm.trans h))
            | exact (Event.sync_container.inj (h2.symm.trans h))
            | (exfalso; cases h2.symm.trans h)
      have ho : o2 = o :=
        key_unique idMap hnd i o2 o (by rw [← hi]; exact hin2) hmem
      rw [ho] at hm2
      simp [hmat] at hm2
    · have := deletePass_removal _ e hc
      rcases hform with h | h <;> subst h <;> simp [isRemovalEvent] at this
  exact ⟨hsync _ (Or.inl rfl), hsync _ (Or.inr rfl), hnotRem⟩

theorem C9_witness :
    Event.sync_placement 1 ∉ sync_object_placements_and_deletions [(1, ⟨true, false⟩)] ∧
    Event.sync_container 1 ∉ sync_object_placements_and_deletions [(1, ⟨true, false⟩)] ∧
    Event.remove_product 1 ∉ sync_object_placements_and_deletions [(1, ⟨true, false⟩)] :=
  C9_materials_skipped [(1, ⟨true, false⟩)] (by simp) 1 ⟨true, false⟩
    (by simp) rfl

/-! ## sync_edited_objects (export_ifc.py lines 106-117), claim C8 -/

/-- The slice of an IfcStore.edited_objs member the loop reads: its name,
whether it is a bpy.types.Material, and whether it has been deleted (a
deleted object makes the per-object body raise ReferenceError, which is
caught and ignored).  A Python-falsy entry is modelled as none and skipped
by the continue. -/
structure EObj where
  name : String
  isMaterial : Bool
  deleted : Bool
deriving DecidableEq

/-- The loop body of sync_edited_objects over a copy of the edited set:
materials go to blenderbim.core.style.update_style_colours, everything else
to the bim.update_representation operator; a ReferenceError from a deleted
object is swallowed per object. -/
def processEdited : List (Option EObj) → List Event
  | [] => []
  | none :: rest => processEdited rest
  | some o :: rest =>
    (if o.deleted then []
     else if o.isMaterial then [Event.update_style_colours o.name]
     else [Event.update_representation o.name])
      ++ processEdited rest

/-- IfcExporter.sync_edited_objects (export_ifc.py lines 106-117): runs the
loop, then IfcStore.edited_objs.clear().  Returns the final edited set and
the trace. -/
def sync_edited_objects (edited : List (Option EObj)) :
    List (Option EObj) × List Event :=
  ([], processEdited edited)

/-- C8: after a completed run of sync_edited_objects the edited set is
empty — the clear() at the end is unconditional — and every live tracked
entry was processed: style-colour update for materials, representation
update for other objects, while deleted entries are skipped by the
per-object ReferenceError handler. -/
theorem C8_edited_objs_cleared (edited : List (Option EObj)) :
    (sync_edited_objects edited).1 = [] ∧
    (∀ o : EObj, some o ∈ edited → o.deleted = false →
      (if o.isMaterial then Event.update_style_colours o.name
       else Event.update_representation o.name) ∈ (sync_edited_objects edited).2) := by
  refine ⟨rfl, ?_⟩
  intro o hmem hdel
  show _ ∈ processEdited edited
  induction edited with
  | nil => simp at hmem
  | cons p rest ih =>
    rcases List.mem_cons.mp hmem with hp | hp
    · subst hp
      by_cases hm : o.isMaterial <;>
        simp [processEdited, hdel, hm]
    · cases p with
      | none => simpa [processEdited] using ih hp
      | some q =>
        simp only [processEdited, List.mem_append]
        exact Or.inr (ih hp)

theorem C8_witness :
    (if (⟨"Cube", false, false⟩ : EObj).isMaterial then
      Event.update_style_colours (⟨"Cube", false, false⟩ : EObj).name
     else Event.update_representation (⟨"Cube", false, false⟩ : EObj).name) ∈
      (sync_edited_objects [some ⟨"Cube", false, false⟩]).2 :=
  (C8_edited_objs_cleared [some ⟨"Cube", false, false⟩]).2
    ⟨"Cube", false, false⟩ (by simp) rfl

/-! ## qto operators (module/qto/operator.py), claims C4, C6 -/

/-- Round-half-to-even to the nearest integer, the rounding used by the Python
built-in round (the float embedding is exact rationals). -/
def rintHalfEven (x : ℚ) : ℤ :=
  if Int.fract x = 1/2 then (if ⌊x⌋ % 2 = 0 then ⌊x⌋ else ⌊x⌋ + 1)
  else round x

/-- Python round(x, 3): round half-to-even at the third decimal. -/
def pyRound3 (x : ℚ) : ℚ := (rintHalfEven (x * 1000) : ℚ) / 1000

/-- The slice of a Blender object the qto operators read: obj.type and
BIMObjectProperties.ifc_definition_id (0 when unset, Python-falsy). -/
structure QObj where
  type : String
  ifc_definition_id : ℕ
deriving DecidableEq

/-- scene.BIMQtoProperties as read by the operators. -/
structure QtoProps where
  qto_methods : String
  qto_name : String
  prop_name : String

/-- The helper module (blenderbim.bim.module.qto.helper), whose code is not
part of this excerpt: each function is an abstract numeric computation over
the objects it is handed. -/
structure QtoEnv where
  calculate_height : QObj → ℚ
  calculate_edges_lengths : List QObj → ℚ
  calculate_faces_areas : List QObj → ℚ
  calculate_volumes : List QObj → ℚ
  calculate_formwork_area : List QObj → ℚ

/-- The method dispatch of QuantifyObjects._execute (operator.py lines
114-120): HEIGHT, VOLUME, FORMWORK, anything else leaves result = 0. -/
def qtoDispatch (env : QtoEnv) (props : QtoProps) (o : QObj) : ℚ :=
  if props.qto_methods == "HEIGHT" then env.calculate_height o
  else if props.qto_methods == "VOLUME" then env.calculate_volumes [o]
  else if props.qto_methods == "FORMWORK" then env.calculate_formwork_area [o]
  else 0

/-- QuantifyObjects._execute (operator.py lines 108-132): iterate the
selected MESH objects; skip those without an ifc_definition_id; skip a
Python-falsy (zero) result; otherwise round to 3 decimals and store it via
pset.add_qto, pset.edit_qto, then reload the pset cache. -/
def quantify_objects (env : QtoEnv) (props : QtoProps) :
    List QObj → List Event
  | [] => []
  | o :: rest =>
    if o.type == "MESH" then
      if o.ifc_definition_id = 0 then quantify_objects env props rest
      else if qtoDispatch env props o = 0 then quantify_objects env props rest
      else
        Event.add_qto o.ifc_definition_id props.qto_name ::
        Event.edit_qto [(props.prop_name, pyRound3 (qtoDispatch env props o))] ::
        Event.pset_load o.ifc_definition_id ::
        quantify_objects env props rest
    else quantify_objects env props rest

/-- The objects for which _execute stores a quantity. -/
def qtoQualifies (env : QtoEnv) (props : QtoProps) (o : QObj) : Bool :=
  o.type == "MESH" && !(o.ifc_definition_id == 0)
    && !(qtoDispatch env props o == 0)

/-- The three API calls _execute makes for one qualifying object. -/
def qtoEmit (env : QtoEnv) (props : QtoProps) (o : QObj) : List Event :=
  [Event.add_qto o.ifc_definition_id props.qto_name,
   Event.edit_qto [(props.prop_name, pyRound3 (qtoDispatch env props o))],
   Event.pset_load o.ifc_definition_id]

def emitAll (f : QObj → List Event) : List QObj → List Event
  | [] => []
  | o :: rest => f o ++ emitAll f rest

/-- C4: QuantifyObjects._execute stores a quantity (pset.add_qto followed by
pset.edit_qto with the result rounded to 3 decimals) for exactly the
selected objects that are of type MESH, have a non-zero ifc_definition_id
and whose chosen quantity method returns a non-zero result; every other
selected object contributes nothing to the trace, so the IFC file is
untouched for it. -/
theorem C4_quantify_objects (env : QtoEnv) (props : QtoProps)
    (selected : List QObj) :
    quantify_objects env props selected =
      emitAll (qtoEmit env props) (selected.filter (qtoQualifies env props)) := by
  induction selected with
  | nil => rfl
  | cons o rest ih =>
    by_cases ht : o.type == "MESH"
    · by_cases hid : o.ifc_definition_id = 0
      · simp [quantify_objects, qtoQualifies, List.filter_cons, ht, hid, ih]
      · by_cases hres : qtoDispatch env props o = 0
        · simp [quantify_objects, qtoQualifies, List.filter_cons, ht, hid, hres, ih]
        · simp [quantify_objects, qtoQualifies, qtoEmit, emitAll,
            List.filter_cons, ht, hid, hres, ih]
    · simp [quantify_objects, qtoQualifies, List.filter_cons, ht, ih]

/-- The list comprehension [o for o in context.selected_objects if o.type
== "MESH"] shared by the Calculate* operators. -/
def meshSelection (selected : List QObj) : List QObj :=
  selected.filter (fun o => o.type == "MESH")

/-- CalculateEdgeLengths.execute (operator.py lines 36-39): result of
helper.calculate_edges_lengths on the selected MESH objects, rounded to 3
decimals and stored in BIMQtoProperties.qto_result as a string; the
operator returns {"FINISHED"}. -/
def calculate_edge_lengths_execute (env : QtoEnv) (selected : List QObj) :
    String × List String :=
  (toString (pyRound3 (env.calculate_edges_lengths (meshSelection selected))),
   ["FINISHED"])

/-- CalculateFaceAreas.execute (operator.py lines 51-54). -/
def calculate_face_areas_execute (env : QtoEnv) (selected : List QObj) :
    String × List String :=
  (toString (pyRound3 (env.calculate_faces_areas (meshSelection selected))),
   ["FINISHED"])

/-- CalculateObjectVolumes.execute (operator.py lines 66-69). -/
def calculate_object_volumes_execute (env : QtoEnv) (selected : List QObj) :
    String × List String :=
  (toString (pyRound3 (env.calculate_volumes (meshSelection selected))),
   ["FINISHED"])

/-- C6: each Calculate* operator hands its helper exactly the selected
objects of type MESH, stores the helper result rounded to 3 decimals as a
string in qto_result, and returns {"FINISHED"}. -/
theorem C6_calculate_operators (env : QtoEnv) (selected : List QObj) :
    (∀ o, o ∈ meshSelection selected ↔ o ∈ selected ∧ o.type = "MESH") ∧
    calculate_edge_lengths_execute env selected =
      (toString (pyRound3 (env.calculate_edges_lengths (meshSelection selected))),
       ["FINISHED"]) ∧
    calculate_face_areas_execute env selected =
      (toString (pyRound3 (env.calculate_faces_areas (meshSelection selected))),
       ["FINISHED"]) ∧
    calculate_object_volumes_execute env selected =
      (toString (pyRound3 (env.calculate_volumes (meshSelection selected))),
       ["FINISHED"]) := by
  refine ⟨?_, rfl, rfl, rfl⟩
  intro o
  simp [meshSelection, List.mem_filter]

/-- Helper environment used to evaluate the qto model at concrete inputs:
a constant height of 2, every list computation 0. -/
def qtoEnv1 : QtoEnv :=
  ⟨fun _ => 2, fun _ => 0, fun _ => 0, fun _ => 0, fun _ => 0⟩

def qtoProps1 : QtoProps := ⟨"HEIGHT", "Qto_WallBaseQuantities", "Height"⟩

theorem C4_witness :
    quantify_objects qtoEnv1 qtoProps1 [⟨"MESH", 7⟩] =
      emitAll (qtoEmit qtoEnv1 qtoProps1)
        ([(⟨"MESH", 7⟩ : QObj)].filter (qtoQualifies qtoEnv1 qtoProps1)) :=
  C4_quantify_objects qtoEnv1 qtoProps1 [⟨"MESH", 7⟩]

theorem C6_witness :
    (⟨"MESH", 1⟩ : QObj) ∈ meshSelection [⟨"MESH", 1⟩] ↔
      (⟨"MESH", 1⟩ : QObj) ∈ [(⟨"MESH", 1⟩ : QObj)] ∧
        (⟨"MESH", 1⟩ : QObj).type = "MESH" :=
  (C6_calculate_operators qtoEnv1 [⟨"MESH", 1⟩]).1 ⟨"MESH", 1⟩

theorem C3_witness :
    ((sync_object_placements_and_deletions [(4, ⟨false, false⟩)]).filterMap removeId =
      ([(4, (⟨false, false⟩ : TrackedObj))].filter
        (fun p => !p.2.isMaterial && should_delete p.2)).map Prod.fst) ∧
    ((sync_object_placements_and_deletions [(4, ⟨false, false⟩)]).filter isRemovalEvent =
      deletePass
        (([(4, (⟨false, false⟩ : TrackedObj))].filter
          (fun p => !p.2.isMaterial && should_delete p.2)).map Prod.fst)) ∧
    (∃ A B, sync_object_placements_and_deletions [(4, ⟨false, false⟩)] = A ++ B ∧
      (∀ e ∈ A, isRemovalEvent e = false) ∧ (∀ e ∈ B, isSyncEvent e = false)) :=
  C3_deletions [(4, ⟨false, false⟩)]

/-! ## blenderbim.core.type.assign_type (core/type.py lines 22-37),
claim C10 -/

/-- blenderbim.core.type.assign_type.  Parameters stand for the values the
surrounding tools produce: body is type_tool.get_body_representation(element),
anyRep is type_tool.get_any_representation(element) (each none when the
element has no such representation, Python-falsy), dynVoids is
type_tool.has_dynamic_voids(obj).  The trace records ifc.run
("type.assign_type", ...), the optional
blenderbim.core.geometry.switch_representation call (with
should_reload=False, enable_dynamic_voids=dynVoids, is_global=False), and
type_tool.disable_editing(obj). -/
def assign_type (body anyRep : Option ℕ) (dynVoids : Bool) : List Event :=
  Event.run_assign_type ::
    ((match (if body.isSome then body else anyRep) with
      | some r => [Event.switch_representation r false dynVoids false]
      | none => []) ++ [Event.disable_editing])

/-- C10: assign_type runs the type-assignment API first; then switches the
representation to the body representation when one exists, otherwise to any
available representation, and switches nothing when the element has no
representation at all; in every case editing is disabled at the end. -/
theorem C10_assign_type (body anyRep : Option ℕ) (dynVoids : Bool) :
    (assign_type body anyRep dynVoids).head? = some Event.run_assign_type ∧
    (∀ r, body = some r →
      assign_type body anyRep dynVoids =
        [Event.run_assign_type,
         Event.switch_representation r false dynVoids false,
         Event.disable_editing]) ∧
    (∀ r, body = none → anyRep = some r →
      assign_type body anyRep dynVoids =
        [Event.run_assign_type,
         Event.switch_representation r false dynVoids false,
         Event.disable_editing]) ∧
    (body = none → anyRep = none →
      assign_type body anyRep dynVoids =
        [Event.run_assign_type, Event.disable_editing]) ∧
    (assign_type body anyRep dynVoids).getLast? = some Event.disable_editing := by
  refine ⟨rfl, ?_, ?_, ?_, ?_⟩
  · intro r h; subst h; rfl
  · intro r hb ha; subst hb; subst ha; rfl
  · intro hb ha; subst hb; subst ha; rfl
  · cases body <;> cases anyRep <;> rfl

theorem C10_witness :
    assign_type (some 5) none true =
      [Event.run_assign_type, Event.switch_representation 5 false true false,
       Event.disable_editing] :=
  (C10_assign_type (some 5) none true).2.1 5 rfl

end BBim

